import Mathlib

/-!
Verification of `split_tilemap.py`: a script that slices a tilemap image into
a 4x4 grid of tiles and saves each tile under a fixed name.

The embedding models an in-memory raster image as a width, a height and a
pixel function; `crop` follows PIL's semantics (pixels outside the source are
0); the main script is `runProgram`, which takes the decode result (`none`
models a missing or undecodable source file) and a save policy telling which
save calls succeed (indexed by the number of tiles saved so far), and returns
the directory-creation flag, the ordered list of successful file writes, the
console output and the final success flag.
-/

/-- An in-memory raster image: integer width and height and a pixel buffer,
modelled as a function from coordinates (x, y) to a pixel value. -/
structure Image where
  width : Nat
  height : Nat
  pix : Nat → Nat → Nat

/-- `img.crop((left, top, right, bottom))`: the sub-image of width
`right - left` and height `bottom - top` whose pixel (x, y) is the source
pixel (left + x, top + y), or 0 outside the source bounds. -/
def crop (img : Image) (left top right bottom : Nat) : Image :=
  { width := right - left,
    height := bottom - top,
    pix := fun x y =>
      if left + x < img.width ∧ top + y < img.height then
        img.pix (left + x) (top + y)
      else 0 }

/-- `tilemap_path` constant from the script. -/
def tilemap_path : String :=
  "/Users/majling/openrouter-images/image-2025-10-18T14-08-11-931Z.png"

/-- `output_dir` constant from the script. -/
def output_dir : String :=
  "/Users/majling/Development/its-just-fine/v2/public/assets/textures/ground"

/-- `tile_width = width // 4`. -/
def tile_width (width : Nat) : Nat :=
  width / 4

/-- `tile_height = height // 4`. -/
def tile_height (height : Nat) : Nat :=
  height / 4

/-- The static 4x4 `tile_names` table. -/
def tile_names : List (List String) :=
  [["brick_wall", "cracked_stone", "bloodstained", "dirt_gravel"],
   ["mossy_stone", "rune_circle", "dark_vortex", "bones"],
   ["lava_cracks", "frozen_ice", "wooden_planks", "metal_grate"],
   ["spike_trap", "toxic_slime", "corrupted_stone", "dark_concrete"]]

/-- `tile_names[row][col]`. -/
def tileName (row col : Nat) : String :=
  (tile_names.getD row []).getD col ("")

/-- `os.path.join(output_dir, f"tile_{tile_name}.png")`. -/
def tilePath (name : String) : String :=
  output_dir ++ "/" ++ ("tile_" ++ name ++ ".png")

/-- The crop box of cell (row, col): `left = col * tile_width`,
`top = row * tile_height`, `right = left + tile_width`,
`bottom = top + tile_height`. -/
def cropBox (tw th row col : Nat) : Nat × Nat × Nat × Nat :=
  (col * tw, row * th, col * tw + tw, row * th + th)

/-- The (row, col) cells visited by the nested `for row in range(4): for col
in range(4)` loops, in row-major order. -/
def cells : List (Nat × Nat) :=
  (List.range 4).flatMap (fun row => (List.range 4).map (fun col => (row, col)))

/-- State carried through the crop-and-save loop: successful writes so far
(path and saved image, in order), console lines printed by the loop, the
`tile_index` counter, and whether the run is still alive (no failed save). -/
structure LoopState where
  saves : List (String × Image)
  lines : List String
  tile_index : Nat
  ok : Bool

/-- Initial loop state. -/
def initState : LoopState :=
  { saves := [], lines := [], tile_index := 0, ok := true }

/-- The `for row / for col` loop body: compute the crop box, crop the tile,
save it to `tile_<name>.png`, bump `tile_index` and print a `Saved:` line.
`pol` tells whether the save call with the given index succeeds; a failed
save terminates the loop at once (an uncaught exception). -/
def saveLoop (img : Image) (tw th : Nat) (pol : Nat → Bool) :
    List (Nat × Nat) → LoopState → LoopState
  | [], st => st
  | (row, col) :: rest, st =>
    let box := cropBox tw th row col
    let tile := crop img box.1 box.2.1 box.2.2.1 box.2.2.2
    let path := tilePath (tileName row col)
    if pol st.tile_index then
      saveLoop img tw th pol rest
        { saves := st.saves ++ [(path, tile)],
          lines := st.lines ++ ["Saved: " ++ path],
          tile_index := st.tile_index + 1,
          ok := true }
    else
      { st with ok := false }

/-- Observable outcome of one run of the script. -/
structure RunResult where
  dirCreated : Bool
  ok : Bool
  saves : List (String × Image)
  output : List String
  tile_index : Nat

/-- The whole script. `os.makedirs` runs first; then the image is decoded
(`none` models a missing or undecodable file, which raises and aborts the
run); then the size lines are printed and the crop-and-save loop runs; on
full success the final count line is printed. -/
def runProgram (decode : Option Image) (pol : Nat → Bool) : RunResult :=
  match decode with
  | none =>
    { dirCreated := true, ok := false, saves := [], output := [], tile_index := 0 }
  | some img =>
    let tw := tile_width img.width
    let th := tile_height img.height
    let header :=
      ["Image size: " ++ toString img.width ++ "x" ++ toString img.height,
       "Tile size: " ++ toString tw ++ "x" ++ toString th]
    let st := saveLoop img tw th pol cells initState
    { dirCreated := true,
      ok := st.ok,
      saves := st.saves,
      output := header ++ st.lines ++
        (if st.ok then
          ["\nSuccessfully split tilemap into " ++ toString st.tile_index ++ " tiles!"]
        else []),
      tile_index := st.tile_index }

/-- The save events of a fully successful run. -/
def runSaves (img : Image) : List (String × Image) :=
  (runProgram (some img) (fun _ => true)).saves

/-- The tile saved for cell (row, col) on a fully successful run
(row-major index `4 * row + col` into the save events). -/
def runTile (img : Image) (row col : Nat) : Image :=
  ((runSaves img).getD (4 * row + col) (("", img))).2

/-- The 16 output paths in row-major cell order. -/
def expectedPaths : List String :=
  cells.map (fun rc => tilePath (tileName rc.1 rc.2))

/-- The crop of cell (row, col), written out with the script's box. -/
def cellTile (img : Image) (row col : Nat) : Image :=
  crop img (col * tile_width img.width) (row * tile_height img.height)
    (col * tile_width img.width + tile_width img.width)
    (row * tile_height img.height + tile_height img.height)

/-- Pixel (x, y) of the image obtained by placing the saved tile of each cell
(row, col) back at offset (col * tile_width, row * tile_height): position
(x, y) falls inside the tile of cell (y / tile_height, x / tile_width), at
in-tile offset (x % tile_width, y % tile_height). -/
def reassembled (img : Image) (x y : Nat) : Nat :=
  (runTile img (y / tile_height img.height) (x / tile_width img.width)).pix
    (x % tile_width img.width) (y % tile_height img.height)

/-- A filesystem, as a partial map from paths to saved image contents
(encoding is deterministic, so file bytes are identified with the image). -/
def FileSys : Type :=
  String → Option Image

/-- The empty filesystem. -/
def emptyFS : FileSys :=
  fun _ => none

/-- Apply a list of file writes in order; a later write to the same path
overwrites an earlier one. -/
def writeFiles (fs : FileSys) (ws : List (String × Image)) : FileSys :=
  ws.foldl (fun acc pr => fun q => if q = pr.1 then some pr.2 else acc q) fs

/-- A concrete image whose pixel values encode their coordinates injectively
(for 1024-wide images): pixel (x, y) has value x + 2 * width * y. -/
def mkImg (w h : Nat) : Image :=
  { width := w, height := h, pix := fun x y => x + 2 * w * y }

/-- A concrete 1024 x 1024 source image. -/
def img1024 : Image :=
  mkImg 1024 1024

/-- A concrete 401 x 400 source image (width not divisible by 4). -/
def img401 : Image :=
  mkImg 401 400

/-- A save policy under which the first five save calls succeed and the
sixth (index 5, cell (1, 1)) fails. -/
def pol5 : Nat → Bool :=
  fun j => decide (j < 5)

/-- The cell list, evaluated. -/
theorem cells_eq : cells =
    [(0, 0), (0, 1), (0, 2), (0, 3), (1, 0), (1, 1), (1, 2), (1, 3),
     (2, 0), (2, 1), (2, 2), (2, 3), (3, 0), (3, 1), (3, 2), (3, 3)] := by
  decide

/-- A fully successful run saves, in row-major cell order, exactly the crop
of each cell under its table name. -/
theorem runSaves_eq (img : Image) :
    runSaves img =
      cells.map (fun rc => (tilePath (tileName rc.1 rc.2), cellTile img rc.1 rc.2)) := by
  simp [runSaves, runProgram, cells_eq, saveLoop, initState, cellTile, cropBox,
    tile_width, tile_height]

/-- The tile saved for an in-range cell is the crop of that cell. -/
theorem runTile_eq (img : Image) (row col : Nat) (hr : row < 4) (hc : col < 4) :
    runTile img row col = cellTile img row col := by
  unfold runTile
  rw [runSaves_eq, cells_eq]
  interval_cases row <;> interval_cases col <;> rfl

/-- A run whose saves all succeed completes successfully. -/
theorem runOk (img : Image) :
    (runProgram (some img) (fun _ => true)).ok = true := by
  simp [runProgram, cells_eq, saveLoop, initState]

/-- Pixel access into a cropped image, unfolded. -/
theorem crop_pix (img : Image) (l t r b x y : Nat) :
    (crop img l t r b).pix x y =
      if l + x < img.width ∧ t + y < img.height then img.pix (l + x) (t + y) else 0 := rfl

/-- Every saved tile has dimensions `width // 4` by `height // 4`. -/
theorem runSaves_sizes (img : Image) :
    ∀ pr ∈ runSaves img, pr.2.width = img.width / 4 ∧ pr.2.height = img.height / 4 := by
  intro pr hpr
  rw [runSaves_eq, cells_eq] at hpr
  fin_cases hpr <;>
    refine ⟨?_, ?_⟩ <;> simp [cellTile, crop, tile_width, tile_height]

/-- An all-successful loop only appends to the accumulated save list. -/
theorem saveLoop_saves_ext (img : Image) (tw th : Nat) :
    ∀ (cl : List (Nat × Nat)) (st : LoopState),
      ∃ tail, (saveLoop img tw th (fun _ => true) cl st).saves = st.saves ++ tail := by
  intro cl
  induction cl with
  | nil => intro st; exact ⟨[], by simp [saveLoop]⟩
  | cons hd rest ih =>
    intro st
    obtain ⟨r, c⟩ := hd
    obtain ⟨tail, htail⟩ := ih
      { saves := st.saves ++ [(tilePath (tileName r c),
          crop img (cropBox tw th r c).1 (cropBox tw th r c).2.1
            (cropBox tw th r c).2.2.1 (cropBox tw th r c).2.2.2)],
        lines := st.lines ++ ["Saved: " ++ tilePath (tileName r c)],
        tile_index := st.tile_index + 1,
        ok := true }
    refine ⟨(tilePath (tileName r c),
      crop img (cropBox tw th r c).1 (cropBox tw th r c).2.1
        (cropBox tw th r c).2.2.1 (cropBox tw th r c).2.2.2) :: tail, ?_⟩
    simp [saveLoop, htail]

/-- If the save with index k is the first to fail, the loop stops there with
exactly the first k saves of the all-successful loop performed. -/
theorem saveLoop_fail (img : Image) (tw th : Nat) (pol : Nat → Bool) (k : Nat)
    (hk : pol k = false) (hprev : ∀ j, j < k → pol j = true) :
    ∀ (cl : List (Nat × Nat)) (st : LoopState),
      st.ok = true → st.saves.length = st.tile_index →
      st.tile_index ≤ k → k < st.tile_index + cl.length →
      (saveLoop img tw th pol cl st).ok = false ∧
      (saveLoop img tw th pol cl st).saves =
        (saveLoop img tw th (fun _ => true) cl st).saves.take k := by
  intro cl
  induction cl with
  | nil => intro st _ _ hle hlt; simp at hlt; omega
  | cons hd rest ih =>
    intro st hok hlen hle hlt
    obtain ⟨r, c⟩ := hd
    by_cases hek : st.tile_index = k
    · have : pol st.tile_index = false := by rw [hek]; exact hk
      constructor
      · simp [saveLoop, this]
      · obtain ⟨tail, htail⟩ := saveLoop_saves_ext img tw th rest
          { saves := st.saves ++ [(tilePath (tileName r c),
              crop img (cropBox tw th r c).1 (cropBox tw th r c).2.1
                (cropBox tw th r c).2.2.1 (cropBox tw th r c).2.2.2)],
            lines := st.lines ++ ["Saved: " ++ tilePath (tileName r c)],
            tile_index := st.tile_index + 1,
            ok := true }
        simp [saveLoop, this, htail]
        rw [← hek, ← hlen]
        exact (List.take_left _ _).symm
    · have hlt2 : st.tile_index < k := by omega
      have hp : pol st.tile_index = true := hprev _ hlt2
      have := ih
        { saves := st.saves ++ [(tilePath (tileName r c),
            crop img (cropBox tw th r c).1 (cropBox tw th r c).2.1
              (cropBox tw th r c).2.2.1 (cropBox tw th r c).2.2.2)],
          lines := st.lines ++ ["Saved: " ++ tilePath (tileName r c)],
          tile_index := st.tile_index + 1,
          ok := true }
        rfl (by simp [hlen]) (by show st.tile_index + 1 ≤ k; omega)
        (by show k < st.tile_index + 1 + rest.length; simp at hlt; omega)
      constructor
      · rw [saveLoop, if_pos hp]; exact this.1
      · rw [saveLoop, if_pos hp, saveLoop, if_pos rfl]
        exact this.2

/-- Applying a write list to a filesystem, evaluated at one path, is a fold
over the writes starting from the old content of that path. -/
theorem writeFiles_apply (q : String) :
    ∀ (ws : List (String × Image)) (fs : FileSys),
      writeFiles fs ws q =
        ws.foldl (fun o pr => if q = pr.1 then some pr.2 else o) (fs q) := by
  intro ws
  induction ws with
  | nil => intro fs; rfl
  | cons hd rest ih =>
    intro fs
    show writeFiles (fun p => if p = hd.1 then some hd.2 else fs p) rest q = _
    rw [ih]
    rfl

/-- Last write wins: the fold over a write list either settles on some
written value, independent of the start, or returns the start value. -/
theorem foldl_lastwins (q : String) :
    ∀ (ws : List (String × Image)) (i : Option Image),
      ws.foldl (fun o pr => if q = pr.1 then some pr.2 else o) i =
        match ws.foldl (fun o pr => if q = pr.1 then some pr.2 else o) none with
        | some v => some v
        | none => i := by
  intro ws
  induction ws with
  | nil => intro i; rfl
  | cons hd rest ih =>
    intro i
    simp only [List.foldl_cons]
    by_cases h : q = hd.1
    · rw [if_pos h, if_pos h, ih (some hd.2)]
      cases rest.foldl (fun o pr => if q = pr.1 then some pr.2 else o) none with
      | none => rfl
      | some v => rfl
    · rw [if_neg h, if_neg h, ih i]

/-- C1: for every decodable source image of width W and height H, the program
computes tile_width = floor(W/4) and tile_height = floor(H/4), and the save
event of row-major index 4*row + col crops exactly the rectangle
[col*tile_width, row*tile_height, col*tile_width + tile_width,
row*tile_height + tile_height] from the source image. -/
theorem C1_crop_rectangle (img : Image) (row col : Nat) (hr : row < 4) (hc : col < 4) :
    (runProgram (some img) (fun _ => true)).saves.get? (4 * row + col) =
      some (tilePath (tileName row col),
        crop img (col * (img.width / 4)) (row * (img.height / 4))
          (col * (img.width / 4) + img.width / 4)
          (row * (img.height / 4) + img.height / 4)) := by
  have hs : (runProgram (some img) (fun _ => true)).saves = runSaves img := rfl
  rw [hs, runSaves_eq, cells_eq]
  interval_cases row <;> interval_cases col <;>
    simp [cellTile, tile_width, tile_height]

/-- Witness for C1 at the concrete 1024 x 1024 image and cell (2, 1). -/
theorem C1_crop_rectangle_witness :
    2 < 4 ∧ 1 < 4 ∧
    (runProgram (some img1024) (fun _ => true)).saves.get? (4 * 2 + 1) =
      some (tilePath (tileName 2 1),
        crop img1024 (1 * (img1024.width / 4)) (2 * (img1024.height / 4))
          (1 * (img1024.width / 4) + img1024.width / 4)
          (2 * (img1024.height / 4) + img1024.height / 4)) :=
  ⟨by decide, by decide, C1_crop_rectangle img1024 2 1 (by decide) (by decide)⟩

/-- C2: for a source image with width and height divisible by 4, a successful
run produces exactly 16 save events, whose paths are exactly the 16 names of
the fixed table as `tile_<name>.png` in row-major order with no duplicates,
and every saved image has size (W/4) x (H/4). -/
theorem C2_sixteen_named_tiles (img : Image)
    (h4w : 4 ∣ img.width) (h4h : 4 ∣ img.height) :
    (runProgram (some img) (fun _ => true)).ok = true ∧
    (runSaves img).length = 16 ∧
    (runSaves img).map Prod.fst = expectedPaths ∧
    expectedPaths.Nodup ∧
    ∀ pr ∈ runSaves img, pr.2.width = img.width / 4 ∧ pr.2.height = img.height / 4 := by
  refine ⟨runOk img, ?_, ?_, by decide, runSaves_sizes img⟩
  · rw [runSaves_eq, cells_eq]; rfl
  · rw [runSaves_eq, List.map_map]; rfl

/-- Witness for C2 at the concrete 1024 x 1024 image. -/
theorem C2_sixteen_named_tiles_witness :
    4 ∣ img1024.width ∧ 4 ∣ img1024.height ∧
    ((runProgram (some img1024) (fun _ => true)).ok = true ∧
     (runSaves img1024).length = 16 ∧
     (runSaves img1024).map Prod.fst = expectedPaths ∧
     expectedPaths.Nodup ∧
     ∀ pr ∈ runSaves img1024,
       pr.2.width = img1024.width / 4 ∧ pr.2.height = img1024.height / 4) :=
  ⟨by decide, by decide, C2_sixteen_named_tiles img1024 (by decide) (by decide)⟩

/-- C3: for a source image with width and height divisible by 4, placing the
16 saved tiles back at their row-major grid offsets reconstructs every pixel
of the original image exactly. -/
theorem C3_reassembly_exact (img : Image)
    (h4w : 4 ∣ img.width) (h4h : 4 ∣ img.height)
    (x y : Nat) (hx : x < img.width) (hy : y < img.height) :
    reassembled img x y = img.pix x y := by
  unfold reassembled
  set tw := tile_width img.width with htw
  set th := tile_height img.height with hth
  have hw4 : img.width = 4 * tw := by
    rw [htw]; unfold tile_width; omega
  have hh4 : img.height = 4 * th := by
    rw [hth]; unfold tile_height; omega
  have htwpos : 0 < tw := by omega
  have hthpos : 0 < th := by omega
  have hc : x / tw < 4 := Nat.div_lt_of_lt_mul (by omega)
  have hrr : y / th < 4 := Nat.div_lt_of_lt_mul (by omega)
  rw [runTile_eq img _ _ hrr hc]
  unfold cellTile
  rw [← htw, ← hth]
  have hxm : x / tw * tw + x % tw = x := by
    rw [Nat.mul_comm]
    exact Nat.div_add_mod x tw
  have hym : y / th * th + y % th = y := by
    rw [Nat.mul_comm]
    exact Nat.div_add_mod y th
  simp only [crop]
  rw [hxm, hym]
  exact if_pos ⟨hx, hy⟩

/-- Witness for C3 at the concrete 1024 x 1024 image and pixel (1000, 500). -/
theorem C3_reassembly_exact_witness :
    4 ∣ img1024.width ∧ 4 ∣ img1024.height ∧
    1000 < img1024.width ∧ 500 < img1024.height ∧
    reassembled img1024 1000 500 = img1024.pix 1000 500 :=
  ⟨by decide, by decide, by decide, by decide,
   C3_reassembly_exact img1024 (by decide) (by decide) 1000 500 (by decide) (by decide)⟩

/-- C4: the run is deterministic, so a second run writes the identical save
list; overwriting each file with identical content leaves every path of the
filesystem unchanged. -/
theorem C4_idempotent_writes (img : Image) (fs : FileSys) (q : String) :
    writeFiles (writeFiles fs (runSaves img)) (runSaves img) q =
      writeFiles fs (runSaves img) q := by
  rw [writeFiles_apply, writeFiles_apply]
  rw [foldl_lastwins q (runSaves img) (List.foldl _ (fs q) (runSaves img)),
    foldl_lastwins q (runSaves img) (fs q)]
  cases (runSaves img).foldl (fun o pr => if q = pr.1 then some pr.2 else o) none with
  | none => rfl
  | some v => rfl

/-- C5: when the width or height is not divisible by 4, the run still
completes without error, every saved tile has size (W div 4) x (H div 4),
every tile pixel comes from the source pixel at the expected offset, and no
tile reaches the trailing W mod 4 columns or H mod 4 rows of the source. -/
theorem C5_truncation_silent (img : Image)
    (hnd : ¬ 4 ∣ img.width ∨ ¬ 4 ∣ img.height) :
    (runProgram (some img) (fun _ => true)).ok = true ∧
    (∀ pr ∈ runSaves img,
      pr.2.width = img.width / 4 ∧ pr.2.height = img.height / 4) ∧
    (∀ row col, row < 4 → col < 4 →
      ∀ x y, x < img.width / 4 → y < img.height / 4 →
      (runTile img row col).pix x y =
        img.pix (col * (img.width / 4) + x) (row * (img.height / 4) + y) ∧
      col * (img.width / 4) + x < img.width - img.width % 4 ∧
      row * (img.height / 4) + y < img.height - img.height % 4) := by
  refine ⟨runOk img, runSaves_sizes img, ?_⟩
  intro row col hr hc x y hx hy
  rw [runTile_eq img row col hr hc]
  unfold cellTile tile_width tile_height
  interval_cases row <;> interval_cases col <;>
    exact ⟨by rw [crop_pix, if_pos (by omega)], by omega, by omega⟩

/-- Witness for C5 at the concrete 401 x 400 image. -/
theorem C5_truncation_silent_witness :
    (¬ 4 ∣ img401.width ∨ ¬ 4 ∣ img401.height) ∧
    ((runProgram (some img401) (fun _ => true)).ok = true ∧
     (∀ pr ∈ runSaves img401,
       pr.2.width = img401.width / 4 ∧ pr.2.height = img401.height / 4) ∧
     (∀ row col, row < 4 → col < 4 →
       ∀ x y, x < img401.width / 4 → y < img401.height / 4 →
       (runTile img401 row col).pix x y =
         img401.pix (col * (img401.width / 4) + x) (row * (img401.height / 4) + y) ∧
       col * (img401.width / 4) + x < img401.width - img401.width % 4 ∧
       row * (img401.height / 4) + y < img401.height - img401.height % 4)) :=
  ⟨Or.inl (by decide), C5_truncation_silent img401 (Or.inl (by decide))⟩

/-- C6 counterexample: for the concrete 1024 x 1024 image with injective
pixel values, the tile saved as `tile_bones.png` has pixel (0, 0) equal to
525056 = source pixel (768, 256), which differs from the source pixel at
(0, 768) under either coordinate reading, so the claim as stated is false. -/
theorem C6_bones_pixel_counterexample :
    ((runSaves img1024).lookup (tilePath ("bones"))).map (fun t => t.pix 0 0) =
      some 525056 ∧
    img1024.pix 0 768 ≠ 525056 ∧
    img1024.pix 768 0 ≠ 525056 := by
  refine ⟨?_, by decide, by decide⟩
  rfl

/-- C6 (amended): for every 1024 x 1024 source image, the tile size is
256 x 256, the save events are the 16 table names in row-major order, every
tile is 256 x 256, pixel (0, 0) of `tile_brick_wall.png` equals source pixel
(0, 0), and pixel (0, 0) of `tile_bones.png` equals source pixel (768, 256)
(x = left = 3*256, y = top = 1*256). -/
theorem C6_scenario_1024_amended (img : Image)
    (hw : img.width = 1024) (hh : img.height = 1024) :
    tile_width img.width = 256 ∧ tile_height img.height = 256 ∧
    (runSaves img).map Prod.fst = expectedPaths ∧
    (∀ pr ∈ runSaves img, pr.2.width = 256 ∧ pr.2.height = 256) ∧
    (runSaves img).get? 0 = some (tilePath ("brick_wall"), runTile img 0 0) ∧
    (runTile img 0 0).pix 0 0 = img.pix 0 0 ∧
    (runSaves img).get? 7 = some (tilePath ("bones"), runTile img 1 3) ∧
    (runTile img 1 3).pix 0 0 = img.pix 768 256 := by
  refine ⟨by rw [hw]; rfl, by rw [hh]; rfl, ?_, ?_, ?_, ?_, ?_, ?_⟩
  · rw [runSaves_eq, List.map_map]; rfl
  · intro pr hpr
    rw [runSaves_eq, cells_eq] at hpr
    fin_cases hpr <;>
      refine ⟨?_, ?_⟩ <;> simp [cellTile, crop, tile_width, tile_height, hw, hh]
  · rw [runSaves_eq, cells_eq]
    rw [runTile_eq img 0 0 (by omega) (by omega)]
    rfl
  · rw [runTile_eq img 0 0 (by omega) (by omega)]
    simp [cellTile, crop_pix, tile_width, tile_height, hw, hh]
  · rw [runSaves_eq, cells_eq]
    rw [runTile_eq img 1 3 (by omega) (by omega)]
    rfl
  · rw [runTile_eq img 1 3 (by omega) (by omega)]
    simp [cellTile, crop_pix, tile_width, tile_height, hw, hh]

/-- Witness for the amended C6 at the concrete 1024 x 1024 image. -/
theorem C6_scenario_1024_amended_witness :
    img1024.width = 1024 ∧ img1024.height = 1024 ∧
    (tile_width img1024.width = 256 ∧ tile_height img1024.height = 256 ∧
     (runSaves img1024).map Prod.fst = expectedPaths ∧
     (∀ pr ∈ runSaves img1024, pr.2.width = 256 ∧ pr.2.height = 256) ∧
     (runSaves img1024).get? 0 = some (tilePath ("brick_wall"), runTile img1024 0 0) ∧
     (runTile img1024 0 0).pix 0 0 = img1024.pix 0 0 ∧
     (runSaves img1024).get? 7 = some (tilePath ("bones"), runTile img1024 1 3) ∧
     (runTile img1024 1 3).pix 0 0 = img1024.pix 768 256) :=
  ⟨rfl, rfl, C6_scenario_1024_amended img1024 rfl rfl⟩

/-- C7: when the source image cannot be decoded, the run fails, performs no
file write (every filesystem is left unchanged by its save list), and the
output directory creation has already happened, since `os.makedirs` is
sequenced before `Image.open`. -/
theorem C7_missing_source_no_tiles (pol : Nat → Bool) :
    (runProgram none pol).ok = false ∧
    (runProgram none pol).saves = [] ∧
    (runProgram none pol).dirCreated = true ∧
    (∀ fs q, writeFiles fs (runProgram none pol).saves q = fs q) :=
  ⟨rfl, rfl, rfl, fun _ _ => rfl⟩

/-- C8: if the save of the tile of cell (row, col) is the first to fail, the
run aborts with exactly the saves of the cells preceding (row, col) in
row-major order performed, in order, and nothing later attempted. -/
theorem C8_partial_failure_keeps_previous (img : Image) (pol : Nat → Bool)
    (row col : Nat) (hr : row < 4) (hc : col < 4)
    (hfail : pol (4 * row + col) = false)
    (hprev : ∀ j, j < 4 * row + col → pol j = true) :
    (runProgram (some img) pol).ok = false ∧
    (runProgram (some img) pol).saves = (runSaves img).take (4 * row + col) ∧
    (runProgram (some img) pol).saves.length = 4 * row + col := by
  have hlen : cells.length = 16 := by decide
  have h := saveLoop_fail img (tile_width img.width) (tile_height img.height) pol
    (4 * row + col) hfail hprev cells initState rfl rfl (by simp [initState])
    (by simp [initState, hlen]; omega)
  refine ⟨h.1, h.2, ?_⟩
  have h16 : (runSaves img).length = 16 := by
    rw [runSaves_eq, cells_eq]; rfl
  have hs : (runProgram (some img) pol).saves =
      (runSaves img).take (4 * row + col) := h.2
  rw [hs, List.length_take, h16]
  omega

/-- Witness for C8 at the concrete 1024 x 1024 image, with the save of cell
(1, 1) (index 5) failing first. -/
theorem C8_partial_failure_keeps_previous_witness :
    1 < 4 ∧ 1 < 4 ∧ pol5 (4 * 1 + 1) = false ∧ (∀ j, j < 4 * 1 + 1 → pol5 j = true) ∧
    ((runProgram (some img1024) pol5).ok = false ∧
     (runProgram (some img1024) pol5).saves = (runSaves img1024).take (4 * 1 + 1) ∧
     (runProgram (some img1024) pol5).saves.length = 4 * 1 + 1) :=
  ⟨by decide, by decide, by decide, by decide,
   C8_partial_failure_keeps_previous img1024 pol5 1 1 (by decide) (by decide)
     (by decide) (by decide)⟩

/-- C9: on a successful run the console output is exactly one image-size
line, one tile-size line, one `Saved:` line per tile in row-major cell order
(16 in all), and a final line reporting the success count 16. -/
theorem C9_console_output (img : Image) :
    (runProgram (some img) (fun _ => true)).ok = true ∧
    (runProgram (some img) (fun _ => true)).output =
      ["Image size: " ++ toString img.width ++ "x" ++ toString img.height,
       "Tile size: " ++ toString (tile_width img.width) ++ "x" ++
         toString (tile_height img.height)] ++
      cells.map (fun rc => "Saved: " ++ tilePath (tileName rc.1 rc.2)) ++
      ["\nSuccessfully split tilemap into " ++ toString 16 ++ " tiles!"] ∧
    (cells.map (fun rc => "Saved: " ++ tilePath (tileName rc.1 rc.2))).length = 16 ∧
    (runProgram (some img) (fun _ => true)).tile_index = 16 := by
  refine ⟨runOk img, ?_, by decide, ?_⟩ <;>
    simp [runProgram, cells_eq, saveLoop, initState]

/-- C10: the crop box of every cell lies inside the source image: left and
top are nonnegative by construction, right = (col+1)*floor(W/4) is at most W
and bottom = (row+1)*floor(H/4) is at most H. -/
theorem C10_crop_in_bounds (W H row col : Nat) (hr : row < 4) (hc : col < 4) :
    (cropBox (tile_width W) (tile_height H) row col).2.2.1 = (col + 1) * (W / 4) ∧
    (cropBox (tile_width W) (tile_height H) row col).2.2.2 = (row + 1) * (H / 4) ∧
    (cropBox (tile_width W) (tile_height H) row col).2.2.1 ≤ W ∧
    (cropBox (tile_width W) (tile_height H) row col).2.2.2 ≤ H := by
  unfold cropBox tile_width tile_height
  dsimp only
  refine ⟨by ring, by ring, ?_, ?_⟩ <;>
    (interval_cases row <;> interval_cases col <;> omega)

/-- Witness for C10 at W = 1027, H = 402 and cell (3, 3). -/
theorem C10_crop_in_bounds_witness :
    3 < 4 ∧ 3 < 4 ∧
    ((cropBox (tile_width 1027) (tile_height 402) 3 3).2.2.1 = (3 + 1) * (1027 / 4) ∧
     (cropBox (tile_width 1027) (tile_height 402) 3 3).2.2.2 = (3 + 1) * (402 / 4) ∧
     (cropBox (tile_width 1027) (tile_height 402) 3 3).2.2.1 ≤ 1027 ∧
     (cropBox (tile_width 1027) (tile_height 402) 3 3).2.2.2 ≤ 402) :=
  ⟨by decide, by decide, C10_crop_in_bounds 1027 402 3 3 (by decide) (by decide)⟩
